import Mathlib

/-!
Verification of the rtvoicechat voice-assistant backend against its
specification.  The Python sources under `server/app/` are shallowly
embedded as Lean definitions: pure string manipulation becomes functions
on `String` / `List Char`, network-dependent steps become explicit
environment records describing the outcome of each external call, and
Python dictionaries become structures whose absent keys are `none`.
-/

namespace RTVoiceChat

/-! ## Python string primitives

`str.lower` is modelled character-wise by `Char.toLower` (ASCII case
mapping), `str.strip` by dropping whitespace characters from both ends
(`Char.isWhitespace` covers space, tab, CR, LF). -/

/-- Model of Python `str.lower()`: lower-case every character. -/
def pyLower (s : String) : String :=
  ⟨s.data.map Char.toLower⟩

/-- Strip leading and trailing whitespace from a character list. -/
def pyStripList (l : List Char) : List Char :=
  ((l.dropWhile Char.isWhitespace).reverse.dropWhile Char.isWhitespace).reverse

/-- Model of Python `str.strip()`. -/
def pyStrip (s : String) : String :=
  ⟨pyStripList s.data⟩

/-- Python substring test `pat in s`. -/
def pyContains (s pat : String) : Bool :=
  decide (List.IsInfix pat.data s.data)

/-! ## data_handler.py -/

/-- One record of the country / state tables (`{"name": …, "capital": …}`). -/
structure CapitalEntry where
  name : String
  capital : String
deriving Repr, DecidableEq

/-- Python truthiness of an optional string (`if capital:`): `None` and the
empty string are falsy. -/
def truthyStr : Option String → Bool
  | none => false
  | some s => s ≠ ""

/-- `DataHandler.find_country_capital`: lower-case and strip the query, then
return the capital of the first entry whose lower-cased stored name matches. -/
def find_country_capital (countries : List CapitalEntry) (country_name : String) :
    Option String :=
  let q := pyStrip (pyLower country_name)
  (countries.find? (fun c => pyLower c.name == q)).map (fun c => c.capital)

/-- `DataHandler.find_state_capital`: same lookup over the state table. -/
def find_state_capital (states : List CapitalEntry) (state_name : String) :
    Option String :=
  let q := pyStrip (pyLower state_name)
  (states.find? (fun c => pyLower c.name == q)).map (fun c => c.capital)

/-- `DataHandler.find_capital`: try the country table, then (if the result is
falsy) the state table, else `None`. -/
def find_capital (countries states : List CapitalEntry) (query : String) :
    Option String :=
  let cap := find_country_capital countries query
  if truthyStr cap then cap
  else
    let cap2 := find_state_capital states query
    if truthyStr cap2 then cap2 else none

/-- Modelled from the spec: the repository's static JSON data files
(`data/countries.json`, `data/us-states.json`) are not among the staged
sources, so the loaded tables are modelled as any collection satisfying the
spec's data model — "two static collections …, immutable, keyed by
case-insensitive name" mapping names to capitals.  Keyed-by means the
lower-cased names are pairwise distinct; names are plain labels with no
surrounding whitespace and each entry carries a (nonempty) capital city. -/
def WellFormedTable (t : List CapitalEntry) : Prop :=
  t.Pairwise (fun a b => pyLower a.name ≠ pyLower b.name) ∧
  ∀ e ∈ t, pyStripList (pyLower e.name).data = (pyLower e.name).data ∧ e.capital ≠ ""

instance (t : List CapitalEntry) : Decidable (WellFormedTable t) := by
  unfold WellFormedTable
  exact instDecidableAnd

/-! ## bedrock_client.py : intent parsing -/

/-- Result of `BedrockClient._parse_intent_response` (a Python dict; the
missing keys of the default branch are `none`). -/
structure IntentResult where
  is_capital_query : Bool
  query_type : Option String
  entity : Option String
  error : Option String
deriving Repr, DecidableEq

/-- Python `s.split(sep)` for a single-character separator: every occurrence
splits, empty segments kept, `""` gives `[""]`. -/
def pySplitChar (sep : Char) : List Char → List (List Char)
  | [] => [[]]
  | c :: rest =>
    if c = sep then [] :: pySplitChar sep rest
    else
      match pySplitChar sep rest with
      | [] => [[c]]
      | g :: gs => (c :: g) :: gs

/-- Python `sep.join(groups)` for a single-character separator. -/
def pyJoinChar (sep : Char) : List (List Char) → List Char
  | [] => []
  | [g] => g
  | g :: gs => g ++ sep :: pyJoinChar sep gs

/-- Python `s.startswith(pat)` on character lists. -/
def pyStartsWith (l pat : List Char) : Bool :=
  l.take pat.length == pat

/-- `BedrockClient._parse_intent_response`: strip the model's reply; on the
`CAPITAL_QUERY:` prefix with at least three `:`-separated segments, extract
the query type (`parts[1]`) and the entity (`":".join(parts[2:])`,
stripped); anything else is the tolerant not-a-capital-query default. -/
def _parse_intent_response (response : String) : IntentResult :=
  let r := pyStripList response.data
  if pyStartsWith r "CAPITAL_QUERY:".data then
    let parts := pySplitChar ':' r
    if parts.length ≥ 3 then
      { is_capital_query := true
        query_type := some ⟨parts.getD 1 []⟩
        entity := some ⟨pyStripList (pyJoinChar ':' (parts.drop 2))⟩
        error := none }
    else
      { is_capital_query := false, query_type := none, entity := none, error := none }
  else
    { is_capital_query := false, query_type := none, entity := none, error := none }

/-! ## audio_converter.py : format detection -/

/-- Audio payloads as byte lists. -/
abbrev Bytes := List Nat

/-- `audio_data.startswith(sig)` for a byte signature. -/
def bytesStartWith (audio sig : Bytes) : Bool :=
  audio.take sig.length == sig

/-- `AudioConverter.detect_audio_format`: inspect the leading bytes for the
wav / mp3 / webm / ogg signatures, defaulting to `"webm"`. -/
def detect_audio_format (audio_data : Bytes) : String :=
  if bytesStartWith audio_data [0x52, 0x49, 0x46, 0x46] ∧
      (audio_data.drop 8).take 4 == [0x57, 0x41, 0x56, 0x45] then "wav"
  else if bytesStartWith audio_data [0x49, 0x44, 0x33] ∨
      bytesStartWith audio_data [0xff, 0xfb] then "mp3"
  else if bytesStartWith audio_data [0x1a, 0x45, 0xdf, 0xa3] then "webm"
  else if bytesStartWith audio_data [0x4f, 0x67, 0x67, 0x53] then "ogg"
  else "webm"

/-! ## transcribe_client.py : the transcription orchestrator

Network calls are abstracted by environment records describing the outcome of
each external interaction; the control flow of `TranscribeClient` is embedded
verbatim.  Results are the Python dicts, with absent keys mapped to `none`. -/

/-- The dicts produced along the transcription paths
(`{"success": …, "transcription": …, "error": …, "note": …}`). -/
structure TResult where
  success : Bool
  transcription : Option String
  error : Option String
  note : Option String
deriving Repr, DecidableEq

/-- A `TResult` reporting the failure `e` (`success=False`, `transcription=None`). -/
def failResult (e : String) : TResult :=
  { success := false, transcription := none, error := some e, note := none }

/-- How one run of the wait loop in `_transcribe_audio_streaming` ends. -/
inductive WaitOutcome where
  | exited (k : Nat)
  | timedOut (k : Nat)
  | spin
deriving Repr, DecidableEq

/-- The wait loop of `_transcribe_audio_streaming` (`while not
transcription_result["completed"]`): at poll `k` it first tests the completed
flag, then whether the elapsed wall clock exceeds the timeout (taking the
timeout branch), and otherwise sleeps 0.1 s and polls again.  `completed k`
and `clock k` are what the orchestrator observes at poll `k` (the clock in
units of one sleep interval); `fuel` bounds the recursion and is never
exhausted when the clock progresses. -/
def waitLoop (timeout : Nat) (completed : Nat → Bool) (clock : Nat → Nat) :
    Nat → Nat → WaitOutcome
  | 0, _ => .spin
  | fuel + 1, k =>
    if completed k then .exited k
    else if timeout < clock k then .timedOut k
    else waitLoop timeout completed clock fuel (k + 1)

/-- Python truthiness of the optional PCM payload (`if not pcm_audio:`):
`None` and empty bytes are falsy. -/
def truthyBytes : Option Bytes → Bool
  | none => false
  | some b => b ≠ []

/-- Outcomes of the external interactions of one `_transcribe_audio_streaming`
call: credential presence, the PCM conversion result, the session-start
result (`stream_result`), the completed flag and wall clock observed at each
poll of the wait loop, the error recorded by the `on_error` callback, the text
recorded by `on_transcription`, and an exception raised inside the `try` body
(`none` when no step raises). -/
structure StreamEnv where
  hasCreds : Bool
  pcmResult : Option Bytes
  sessionOk : Bool
  sessionError : Option String
  completed : Nat → Bool
  clock : Nat → Nat
  cbError : Option String
  cbText : String
  raises : Option String

/-- Observable outcome of `_transcribe_audio_streaming`: the returned dict,
whether `_transcribe_audio_bucket` was invoked, and whether
`stop_live_transcription` was called on the active session. -/
structure StreamTrace where
  result : TResult
  calledBucket : Bool
  stoppedSession : Bool
deriving Repr, DecidableEq

/-- `TranscribeClient._transcribe_audio_streaming`, with
`bucketResult` the value `_transcribe_audio_bucket` would return on this
audio.  Every failure (missing credentials, PCM-conversion failure,
session-start failure, timeout, in-flight error callback, raised exception)
either redirects to the bucket path (`Config.ENABLE_STREAMING_FALLBACK` true)
or returns the specific error with `success=False`. -/
def _transcribe_audio_streaming (fallback : Bool) (timeout : Nat)
    (env : StreamEnv) (bucketResult : TResult) : StreamTrace :=
  match env.raises with
  | some e =>
    if fallback then ⟨bucketResult, true, false⟩
    else ⟨failResult e, false, false⟩
  | none =>
    if ¬ env.hasCreds then
      if fallback then ⟨bucketResult, true, false⟩
      else ⟨failResult "AWS credentials not configured", false, false⟩
    else if ¬ truthyBytes env.pcmResult then
      if fallback then ⟨bucketResult, true, false⟩
      else ⟨failResult "Failed to convert audio to PCM format", false, false⟩
    else if ¬ env.sessionOk then
      if fallback then ⟨bucketResult, true, false⟩
      else ⟨failResult (env.sessionError.getD "Streaming transcription failed"), false, false⟩
    else
      match waitLoop timeout env.completed env.clock (timeout + 2) 0 with
      | .timedOut _ =>
        if fallback then ⟨bucketResult, true, true⟩
        else ⟨failResult "Streaming transcription timeout", false, true⟩
      | .exited _ =>
        match env.cbError with
        | some e =>
          if fallback then ⟨bucketResult, true, true⟩
          else ⟨failResult e, false, true⟩
        | none =>
          ⟨{ success := true, transcription := some env.cbText, error := none
             note := some "Streaming transcription completed successfully." }, false, true⟩
      | .spin => ⟨failResult "wait loop out of fuel", false, false⟩

/-- Terminal status reached by the polling loop of `_transcribe_audio`. -/
inductive JobOutcome where
  | jobDone (transcript : String)
  | jobFailed (reason : Option String)

/-- Outcomes of the external interactions of `_transcribe_audio` (bucket
path): temp-file creation, credential presence, the S3 upload, the
transcription-job submission, the polled terminal status, and the transcript
fetch.  Each `Option String` is `some e` when that step raises `e`. -/
structure BucketEnv where
  tempFileError : Option String
  hasCreds : Bool
  uploadError : Option String
  submitError : Option String
  jobOutcome : JobOutcome
  fetchError : Option String

/-- The message built by the inner exception handler of `_transcribe_audio`
(lines 340-352): special-cased for `NoSuchBucket` and `AccessDenied`, else
`"Transcription failed: …"`.  Crucially this message is *returned as the
transcription text*, not raised. -/
def bucket_error_message (e : String) : String :=
  if pyContains e "NoSuchBucket" then
    "S3 bucket not found. Please create the bucket or check configuration."
  else if pyContains e "AccessDenied" then
    "Access denied. Please check AWS credentials and permissions."
  else "Transcription failed: " ++ e

/-- `TranscribeClient._transcribe_audio`: returns the transcript string or
raises (`Except.error`).  S3, job-submission, FAILED-status and fetch errors
are swallowed by the inner handler and turned into a *returned* message;
only failures outside it (temp-file handling) propagate as exceptions. -/
def _transcribe_audio (env : BucketEnv) : Except String String :=
  match env.tempFileError with
  | some e => .error e
  | none =>
    if ¬ env.hasCreds then
      .ok "This is a test transcription. Please configure AWS credentials for real transcription."
    else
      match env.uploadError with
      | some e => .ok (bucket_error_message e)
      | none =>
        match env.submitError with
        | some e => .ok (bucket_error_message e)
        | none =>
          match env.jobOutcome with
          | .jobFailed reason =>
            .ok (bucket_error_message ("Transcription job failed: " ++ reason.getD "Unknown error"))
          | .jobDone t =>
            match env.fetchError with
            | some e => .ok (bucket_error_message e)
            | none => .ok t

/-- `TranscribeClient._transcribe_audio_bucket`: wraps `_transcribe_audio`,
reporting a returned string as a successful transcription and a raised
exception as `success=False`. -/
def _transcribe_audio_bucket (env : BucketEnv) : TResult :=
  match _transcribe_audio env with
  | .ok t =>
    { success := true, transcription := some t, error := none
      note := some "Bucket-based transcription completed." }
  | .error e => failResult e

/-- Observable outcome of `transcribe_audio_bytes`: the returned dict and
which backends were invoked. -/
structure ByteTrace where
  result : TResult
  calledStreaming : Bool
  calledBucket : Bool
  stoppedSession : Bool
deriving Repr, DecidableEq

/-- `Config.STREAMING_TIMEOUT`'s default (30 seconds). -/
def streamingTimeoutDefault : Nat := 30

/-- `TranscribeClient.transcribe_audio_bytes`: reject payloads below 100
bytes, then dispatch on `Config.TRANSCRIPTION_MODE` to the streaming or the
bucket path. -/
def transcribe_audio_bytes (mode : String) (fallback : Bool) (timeout : Nat)
    (audio_data : Bytes) (env : StreamEnv) (benv : BucketEnv) : ByteTrace :=
  if audio_data.length < 100 then
    ⟨failResult "Audio data too small or invalid", false, false, false⟩
  else if mode == "streaming" then
    let t := _transcribe_audio_streaming fallback timeout env (_transcribe_audio_bucket benv)
    ⟨t.result, true, t.calledBucket, t.stoppedSession⟩
  else
    ⟨_transcribe_audio_bucket benv, false, true, false⟩

/-! ## voice_agent.py : the coordinator -/

/-- The dicts returned by `VoiceAgent.process_text_input` and
`process_voice_input`; absent keys are `none`. -/
structure AgentResult where
  response : Option String
  success : Bool
  error : Option String
  query_type : Option String
  entity : Option String
  capital : Option String
  audio_bytes : Option Bytes
  transcribed_text : Option String
deriving Repr, DecidableEq

/-- Outcomes of the stages of one `process_voice_input` call: the
transcription result, the dict `process_text_input` would return on the
transcript, and the outcome of `synthesize_speech_bytes`. -/
structure VoiceEnv where
  transcribeResult : TResult
  textResult : AgentResult
  pollySuccess : Bool
  pollyAudio : Option Bytes

/-- Observable outcome of `process_voice_input`: the returned dict, whether
the text stage (`process_text_input`, which performs the Bedrock intent
classification) ran, and whether speech synthesis ran. -/
structure VoiceTrace where
  result : AgentResult
  calledTextStage : Bool
  calledPolly : Bool
deriving Repr, DecidableEq

/-- `VoiceAgent.process_voice_input`: transcribe, short-circuit on failure or
empty transcript, run the text flow, short-circuit on its failure, then
synthesize speech — a synthesis failure still returns `success=True` with
`audio_bytes=None`. -/
def process_voice_input (env : VoiceEnv) : VoiceTrace :=
  if ¬ env.transcribeResult.success then
    ⟨{ response := some "I'm sorry, I couldn't understand your voice input."
       success := false
       error := some (env.transcribeResult.error.getD "Transcription failed")
       query_type := none, entity := none, capital := none
       audio_bytes := none, transcribed_text := none }, false, false⟩
  else if ¬ truthyStr env.transcribeResult.transcription then
    ⟨{ response := some "I'm sorry, I couldn't transcribe your voice input."
       success := false
       error := some "No transcription result"
       query_type := none, entity := none, capital := none
       audio_bytes := none, transcribed_text := none }, false, false⟩
  else if ¬ env.textResult.success then
    ⟨env.textResult, true, false⟩
  else
    let response_text :=
      env.textResult.response.getD "I'm sorry, I couldn't process your request."
    if ¬ env.pollySuccess then
      ⟨{ response := some response_text
         success := true
         audio_bytes := none
         error := some "Speech synthesis failed"
         query_type := none, entity := none, capital := none
         transcribed_text := none }, true, true⟩
    else
      ⟨{ response := some response_text
         success := true
         audio_bytes := env.pollyAudio
         transcribed_text := env.transcribeResult.transcription
         query_type := env.textResult.query_type
         entity := env.textResult.entity
         capital := env.textResult.capital
         error := none }, true, true⟩

/-! ## Concrete environments used to exercise the model -/

/-- A nominal streaming environment: credentials present, conversion and
session start succeed, the final-result callback fires at the first poll. -/
def sampleStreamEnv : StreamEnv where
  hasCreds := true
  pcmResult := some [1, 2, 3]
  sessionOk := true
  sessionError := none
  completed := fun _ => true
  clock := fun k => k
  cbError := none
  cbText := "hello"
  raises := none

/-- A streaming environment whose session start fails. -/
def sessionFailEnv : StreamEnv :=
  { sampleStreamEnv with sessionOk := false, sessionError := some "session start refused" }

/-- A streaming environment whose error callback fires at the first poll. -/
def inFlightErrEnv : StreamEnv :=
  { sampleStreamEnv with cbError := some "bad frame" }

/-- A streaming environment in which some step raises. -/
def raisesEnv : StreamEnv :=
  { sampleStreamEnv with raises := some "socket closed" }

/-- A streaming environment in which no completion callback ever fires; the
clock advances one sleep interval per poll. -/
def timeoutEnv : StreamEnv :=
  { sampleStreamEnv with completed := fun _ => false }

/-- A nominal bucket environment: every external step succeeds. -/
def sampleBucketEnv : BucketEnv where
  tempFileError := none
  hasCreds := true
  uploadError := none
  submitError := none
  jobOutcome := .jobDone "what is the capital of France"
  fetchError := none

/-- A bucket environment whose S3 upload raises. -/
def uploadFailEnv : BucketEnv :=
  { sampleBucketEnv with uploadError := some "boom" }

/-- A bucket environment whose temp-file handling raises. -/
def tempFailEnv : BucketEnv :=
  { sampleBucketEnv with tempFileError := some "disk full" }

/-- An audio payload of 120 zero bytes (past the minimum-size guard). -/
def audio120 : Bytes := List.replicate 120 0

/-- A voice environment whose transcription stage reports failure. -/
def transcribeFailVoiceEnv : VoiceEnv where
  transcribeResult := failResult "Streaming transcription timeout"
  textResult :=
    { response := some "The capital of France is Paris."
      success := true, error := none, query_type := some "COUNTRY"
      entity := some "France", capital := some "Paris"
      audio_bytes := none, transcribed_text := none }
  pollySuccess := true
  pollyAudio := some [9, 9]

/-- A voice environment in which every stage succeeds except speech synthesis. -/
def pollyFailVoiceEnv : VoiceEnv :=
  { transcribeFailVoiceEnv with
      transcribeResult :=
        { success := true
          transcription := some "what is the capital of France"
          error := none, note := none }
      pollySuccess := false }

/-! ## Helper lemmas on characters and stripping -/

theorem char_ofNat_toNat {n : Nat} (h : n.isValidChar) : (Char.ofNat n).toNat = n := by
  rw [Char.ofNat, dif_pos h]
  simp [Char.ofNatAux, Char.toNat, UInt32.toNat, BitVec.toNat_ofNatLt]

theorem toLower_toLower (c : Char) : c.toLower.toLower = c.toLower := by
  unfold Char.toLower
  by_cases h : c.toNat ≥ 65 ∧ c.toNat ≤ 90
  · rw [if_pos h]
    have hv : (c.toNat + 32).isValidChar := by
      left
      omega
    rw [char_ofNat_toNat hv]
    rw [if_neg (by omega)]
  · rw [if_neg h, if_neg h]

theorem toLower_of_whitespace {c : Char} (h : c.isWhitespace = true) : c.toLower = c := by
  unfold Char.isWhitespace at h
  have hc : c = ' ' ∨ c = '\t' ∨ c = '\r' ∨ c = '\n' := by
    simp only [Bool.or_eq_true, decide_eq_true_eq] at h
    tauto
  unfold Char.toLower
  rcases hc with h' | h' | h' | h' <;> subst h' <;> decide

theorem isWhitespace_toLower {c : Char} (h : c.isWhitespace = true) :
    c.toLower.isWhitespace = true := by
  rw [toLower_of_whitespace h]
  exact h

theorem dropWhile_ws_append {l₁ l₂ : List Char}
    (h : ∀ c ∈ l₁, c.isWhitespace = true) :
    (l₁ ++ l₂).dropWhile Char.isWhitespace = l₂.dropWhile Char.isWhitespace := by
  induction l₁ with
  | nil => rfl
  | cons a t ih =>
    rw [List.cons_append, List.dropWhile_cons, h a (List.mem_cons_self a t)]
    exact ih fun c hc => h c (List.mem_cons_of_mem a hc)

theorem pyStripList_ws_append {ws l : List Char}
    (hws : ∀ c ∈ ws, c.isWhitespace = true) :
    pyStripList (ws ++ l) = pyStripList l := by
  unfold pyStripList
  rw [dropWhile_ws_append hws]

theorem pyStripList_append_ws {l ws : List Char}
    (hws : ∀ c ∈ ws, c.isWhitespace = true) :
    pyStripList (l ++ ws) = pyStripList l := by
  unfold pyStripList
  rw [List.dropWhile_append]
  by_cases h : (l.dropWhile Char.isWhitespace).isEmpty = true
  · rw [if_pos h]
    rw [List.isEmpty_iff.mp h]
    have hnil : ws.dropWhile Char.isWhitespace = [] :=
      List.dropWhile_eq_nil_iff.mpr fun c hc => hws c hc
    rw [hnil]
  · rw [if_neg h]
    rw [List.reverse_append]
    rw [dropWhile_ws_append fun c hc => hws c (List.mem_reverse.mp hc)]

theorem string_eta (s : String) : String.mk s.data = s := rfl

theorem pyLower_pyLower (s : String) : pyLower (pyLower s) = pyLower s := by
  unfold pyLower
  congr 1
  rw [List.map_map]
  exact List.map_congr_left fun c _ => toLower_toLower c

theorem normalize_concat_ws {ws1 ws2 : String} (q : String)
    (h1 : ∀ c ∈ ws1.data, c.isWhitespace = true)
    (h2 : ∀ c ∈ ws2.data, c.isWhitespace = true) :
    pyStrip (pyLower (ws1 ++ q ++ ws2)) = pyStrip (pyLower q) := by
  unfold pyStrip pyLower
  congr 1
  rw [String.data_append, String.data_append, List.map_append, List.map_append]
  have hm1 : ∀ c ∈ ws1.data.map Char.toLower, c.isWhitespace = true := by
    intro c hc
    rcases List.mem_map.mp hc with ⟨d, hd, rfl⟩
    exact isWhitespace_toLower (h1 d hd)
  have hm2 : ∀ c ∈ ws2.data.map Char.toLower, c.isWhitespace = true := by
    intro c hc
    rcases List.mem_map.mp hc with ⟨d, hd, rfl⟩
    exact isWhitespace_toLower (h2 d hd)
  rw [pyStripList_append_ws hm2, pyStripList_ws_append hm1]

theorem find_capital_congr {countries states : List CapitalEntry} {q1 q2 : String}
    (h : pyStrip (pyLower q1) = pyStrip (pyLower q2)) :
    find_capital countries states q1 = find_capital countries states q2 := by
  unfold find_capital find_country_capital find_state_capital
  rw [h]

theorem find_entry_self {l : List CapitalEntry} {e : CapitalEntry}
    (he : e ∈ l) (hp : l.Pairwise fun a b => pyLower a.name ≠ pyLower b.name) :
    l.find? (fun c => pyLower c.name == pyLower e.name) = some e := by
  induction l with
  | nil => cases he
  | cons a t ih =>
    rcases List.mem_cons.mp he with rfl | ht
    · exact List.find?_cons_of_pos _ (by simp)
    · have hne : pyLower a.name ≠ pyLower e.name :=
        (List.pairwise_cons.mp hp).1 e ht
      rw [List.find?_cons_of_neg _ (by simpa using hne)]
      exact ih ht (List.pairwise_cons.mp hp).2

/-! ## Claims -/

/-- C4: every audio payload shorter than 100 bytes is rejected by
`transcribe_audio_bytes` with `success=False`, error
`"Audio data too small or invalid"` and a null transcription, and neither
the streaming backend nor the bucket backend is invoked, whatever the
configured transcription mode. -/
theorem C4_min_size_guard (mode : String) (fallback : Bool) (timeout : Nat)
    (audio : Bytes) (env : StreamEnv) (benv : BucketEnv)
    (h : audio.length < 100) :
    transcribe_audio_bytes mode fallback timeout audio env benv =
      ⟨failResult "Audio data too small or invalid", false, false, false⟩ := by
  unfold transcribe_audio_bytes
  rw [if_pos h]

/-- Witness for C4 at a concrete 3-byte payload in streaming mode. -/
theorem C4_min_size_guard_witness :
    transcribe_audio_bytes "streaming" true 30 [0, 1, 2] sampleStreamEnv sampleBucketEnv =
      ⟨failResult "Audio data too small or invalid", false, false, false⟩ :=
  C4_min_size_guard "streaming" true 30 [0, 1, 2] sampleStreamEnv sampleBucketEnv (by decide)

/-- C5: on a well-formed loaded country table, `find_capital` applied to a
stored name returns exactly the capital stored with that entry; a query
absent — under the code's case-insensitive (lower-cased, stripped)
comparison — from both tables returns `none`. -/
theorem C5_find_capital_lookup (countries states : List CapitalEntry) :
    (WellFormedTable countries → ∀ e ∈ countries,
      find_capital countries states e.name = some e.capital) ∧
    (∀ q : String,
      (∀ e ∈ countries, pyLower e.name ≠ pyStrip (pyLower q)) →
      (∀ e ∈ states, pyLower e.name ≠ pyStrip (pyLower q)) →
      find_capital countries states q = none) := by
  constructor
  · rintro ⟨hpw, hwf⟩ e he
    have hstrip : pyStrip (pyLower e.name) = pyLower e.name := by
      unfold pyStrip
      rw [(hwf e he).1]
    have hfind : find_country_capital countries e.name = some e.capital := by
      simp only [find_country_capital, hstrip]
      rw [find_entry_self he hpw]
      rfl
    simp only [find_capital, hfind]
    simp [truthyStr, (hwf e he).2]
  · intro q hc hs
    have h1 : find_country_capital countries q = none := by
      simp only [find_country_capital]
      rw [List.find?_eq_none.mpr fun e he => by simpa using hc e he]
      rfl
    have h2 : find_state_capital states q = none := by
      simp only [find_state_capital]
      rw [List.find?_eq_none.mpr fun e he => by simpa using hs e he]
      rfl
    simp only [find_capital, h1, h2]
    simp [truthyStr]

/-- Witness for C5 on one-entry tables: the stored name resolves to its
stored capital and an absent name resolves to `none`. -/
theorem C5_find_capital_lookup_witness :
    find_capital [⟨"France", "Paris"⟩] [⟨"Texas", "Austin"⟩] "France" = some "Paris" ∧
    find_capital [⟨"France", "Paris"⟩] [⟨"Texas", "Austin"⟩] "Atlantis" = none :=
  ⟨(C5_find_capital_lookup [⟨"France", "Paris"⟩] [⟨"Texas", "Austin"⟩]).1
      (by decide) ⟨"France", "Paris"⟩ (by decide),
   (C5_find_capital_lookup [⟨"France", "Paris"⟩] [⟨"Texas", "Austin"⟩]).2
      "Atlantis" (by decide) (by decide)⟩

/-- C6: `find_capital` is invariant under lower-casing the query, under
surrounding it with whitespace, and more generally under any change of
letter case (queries with equal lower-casings resolve identically), for any
fixed tables. -/
theorem C6_find_capital_invariant (countries states : List CapitalEntry)
    (q ws1 ws2 : String)
    (h1 : ∀ c ∈ ws1.data, c.isWhitespace = true)
    (h2 : ∀ c ∈ ws2.data, c.isWhitespace = true) :
    find_capital countries states (pyLower q) = find_capital countries states q ∧
    find_capital countries states (ws1 ++ q ++ ws2) = find_capital countries states q ∧
    ∀ q' : String, pyLower q' = pyLower q →
      find_capital countries states q' = find_capital countries states q := by
  refine ⟨?_, ?_, ?_⟩
  · exact find_capital_congr (by rw [pyLower_pyLower])
  · exact find_capital_congr (normalize_concat_ws q h1 h2)
  · intro q' h
    exact find_capital_congr (by rw [h])

/-- Witness for C6: `" France "` and `"FRANCE"` resolve exactly as
`"France"` does. -/
theorem C6_find_capital_invariant_witness :
    find_capital [⟨"France", "Paris"⟩] [⟨"Texas", "Austin"⟩] (" " ++ "France" ++ " ") =
      find_capital [⟨"France", "Paris"⟩] [⟨"Texas", "Austin"⟩] "France" ∧
    find_capital [⟨"France", "Paris"⟩] [⟨"Texas", "Austin"⟩] "FRANCE" =
      find_capital [⟨"France", "Paris"⟩] [⟨"Texas", "Austin"⟩] "France" :=
  ⟨(C6_find_capital_invariant [⟨"France", "Paris"⟩] [⟨"Texas", "Austin"⟩]
      "France" " " " " (by decide) (by decide)).2.1,
   (C6_find_capital_invariant [⟨"France", "Paris"⟩] [⟨"Texas", "Austin"⟩]
      "France" " " " " (by decide) (by decide)).2.2 "FRANCE" (by decide)⟩

/-- C7: the intent parser maps `"CAPITAL_QUERY:COUNTRY:France"` to a
capital-query intent with type `COUNTRY` and entity `France`, maps
`"OTHER_QUERY"` to not-a-capital-query, maps the malformed
`"CAPITAL_QUERY:France"` (missing segment) to not-a-capital-query, and —
being a total function — maps every input failing the expected grammar
(no `CAPITAL_QUERY:` lead or fewer than three segments) to
not-a-capital-query instead of raising. -/
theorem C7_parse_intent (s : String) :
    _parse_intent_response "CAPITAL_QUERY:COUNTRY:France" =
      { is_capital_query := true, query_type := some "COUNTRY",
        entity := some "France", error := none } ∧
    _parse_intent_response "OTHER_QUERY" =
      { is_capital_query := false, query_type := none, entity := none, error := none } ∧
    _parse_intent_response "CAPITAL_QUERY:France" =
      { is_capital_query := false, query_type := none, entity := none, error := none } ∧
    (pyStartsWith (pyStripList s.data) "CAPITAL_QUERY:".data = false ∨
        (pySplitChar ':' (pyStripList s.data)).length < 3 →
      (_parse_intent_response s).is_capital_query = false) := by
  refine ⟨by decide, by decide, by decide, ?_⟩
  intro h
  unfold _parse_intent_response
  by_cases hb : pyStartsWith (pyStripList s.data) "CAPITAL_QUERY:".data = true
  · rcases h with h | h
    · rw [hb] at h
      cases h
    · rw [if_pos hb, if_neg (by omega)]
  · rw [if_neg hb]

/-- Witness for C7 at the concrete malformed input `"CAPITAL_QUERY:France"`. -/
theorem C7_parse_intent_witness :
    (_parse_intent_response "CAPITAL_QUERY:France").is_capital_query = false :=
  (C7_parse_intent "CAPITAL_QUERY:France").2.2.2 (by decide)

/-- C9: `detect_audio_format` returns the default `"webm"` on every byte
string whose leading bytes match none of the wav / mp3 / webm / ogg
signatures, and it is total: every input yields one of the four format
strings, never an error. -/
theorem C9_detect_format_default (a : Bytes)
    (h1 : ¬ (bytesStartWith a [0x52, 0x49, 0x46, 0x46] ∧
        (a.drop 8).take 4 == [0x57, 0x41, 0x56, 0x45]))
    (h2 : ¬ (bytesStartWith a [0x49, 0x44, 0x33] ∨ bytesStartWith a [0xff, 0xfb]))
    (h3 : ¬ bytesStartWith a [0x1a, 0x45, 0xdf, 0xa3])
    (h4 : ¬ bytesStartWith a [0x4f, 0x67, 0x67, 0x53]) :
    detect_audio_format a = "webm" ∧
    ∀ b : Bytes, detect_audio_format b = "wav" ∨ detect_audio_format b = "mp3" ∨
      detect_audio_format b = "ogg" ∨ detect_audio_format b = "webm" := by
  constructor
  · unfold detect_audio_format
    rw [if_neg h1, if_neg h2, if_neg h3, if_neg h4]
  · intro b
    unfold detect_audio_format
    split
    · exact Or.inl rfl
    split
    · exact Or.inr (Or.inl rfl)
    split
    · exact Or.inr (Or.inr (Or.inr rfl))
    split
    · exact Or.inr (Or.inr (Or.inl rfl))
    · exact Or.inr (Or.inr (Or.inr rfl))

/-- Witness for C9 at the unrecognized payload `[0, 1, 2]`. -/
theorem C9_detect_format_default_witness :
    detect_audio_format [0, 1, 2] = "webm" :=
  (C9_detect_format_default [0, 1, 2] (by decide) (by decide) (by decide) (by decide)).1

/-- C1: on the streaming path, each streaming failure — session-start
failure, in-flight error callback, raised exception — invokes the bucket
path and returns its result verbatim when `ENABLE_STREAMING_FALLBACK` is
true, and otherwise returns `success=False` carrying the streaming error,
without invoking the bucket path. -/
theorem C1_streaming_fallback (fallback : Bool) (timeout : Nat)
    (env : StreamEnv) (bucketResult : TResult) :
    (env.raises = none → env.hasCreds = true → truthyBytes env.pcmResult = true →
      env.sessionOk = false →
      _transcribe_audio_streaming fallback timeout env bucketResult =
        if fallback then ⟨bucketResult, true, false⟩
        else ⟨failResult (env.sessionError.getD "Streaming transcription failed"),
          false, false⟩) ∧
    (env.raises = none → env.hasCreds = true → truthyBytes env.pcmResult = true →
      env.sessionOk = true →
      ∀ k, waitLoop timeout env.completed env.clock (timeout + 2) 0 = .exited k →
      ∀ e, env.cbError = some e →
      _transcribe_audio_streaming fallback timeout env bucketResult =
        if fallback then ⟨bucketResult, true, true⟩
        else ⟨failResult e, false, true⟩) ∧
    (∀ e, env.raises = some e →
      _transcribe_audio_streaming fallback timeout env bucketResult =
        if fallback then ⟨bucketResult, true, false⟩
        else ⟨failResult e, false, false⟩) := by
  refine ⟨?_, ?_, ?_⟩
  · intro hr hc hp hs
    simp [_transcribe_audio_streaming, hr, hc, hp, hs]
  · intro hr hc hp hs k hk e he
    simp [_transcribe_audio_streaming, hr, hc, hp, hs, hk, he]
  · intro e hr
    simp [_transcribe_audio_streaming, hr]

/-- Witness for C1: concrete session-start failure without fallback,
in-flight error with fallback, raised exception without fallback. -/
theorem C1_streaming_fallback_witness :
    _transcribe_audio_streaming false 30 sessionFailEnv
        (_transcribe_audio_bucket sampleBucketEnv) =
      ⟨failResult "session start refused", false, false⟩ ∧
    _transcribe_audio_streaming true 30 inFlightErrEnv
        (_transcribe_audio_bucket sampleBucketEnv) =
      ⟨_transcribe_audio_bucket sampleBucketEnv, true, true⟩ ∧
    _transcribe_audio_streaming false 30 raisesEnv
        (_transcribe_audio_bucket sampleBucketEnv) =
      ⟨failResult "socket closed", false, false⟩ :=
  ⟨(C1_streaming_fallback false 30 sessionFailEnv
      (_transcribe_audio_bucket sampleBucketEnv)).1 rfl rfl (by decide) rfl,
   (C1_streaming_fallback true 30 inFlightErrEnv
      (_transcribe_audio_bucket sampleBucketEnv)).2.1 rfl rfl (by decide) rfl
      0 rfl "bad frame" rfl,
   (C1_streaming_fallback false 30 raisesEnv
      (_transcribe_audio_bucket sampleBucketEnv)).2.2 "socket closed" rfl⟩

theorem waitLoop_reaches_timeout {timeout : Nat} {completed : Nat → Bool}
    {clock : Nat → Nat}
    (hnc : ∀ j, completed j = false) (hclk : ∀ j, j ≤ clock j) :
    ∀ fuel k, timeout + 2 ≤ fuel + k → (∀ j < k, clock j ≤ timeout) →
      ∃ m, waitLoop timeout completed clock fuel k = .timedOut m ∧
        timeout < clock m ∧ (∀ j < m, clock j ≤ timeout) ∧ m ≤ timeout + 1 := by
  intro fuel
  induction fuel with
  | zero =>
    intro k hk hprev
    exfalso
    have h1 : clock (timeout + 1) ≤ timeout := hprev (timeout + 1) (by omega)
    have h2 : timeout + 1 ≤ clock (timeout + 1) := hclk (timeout + 1)
    omega
  | succ n ih =>
    intro k hk hprev
    by_cases h : timeout < clock k
    · refine ⟨k, ?_, h, hprev, ?_⟩
      · simp [waitLoop, hnc k, h]
      · by_cases hk2 : k ≤ timeout + 1
        · exact hk2
        · exfalso
          have h1 := hprev (timeout + 1) (by omega)
          have h2 := hclk (timeout + 1)
          omega
    · have hnext : ∀ j < k + 1, clock j ≤ timeout := by
        intro j hj
        rcases Nat.lt_succ_iff_lt_or_eq.mp hj with hj' | rfl
        · exact hprev j hj'
        · omega
      obtain ⟨m, hm, h1, h2, h3⟩ := ih (k + 1) (by omega) hnext
      refine ⟨m, ?_, h1, h2, h3⟩
      simp [waitLoop, hnc k, h, hm]

/-- C2: when no completion callback ever fires and the wall clock advances
at least one sleep interval per poll, the wait loop of the streaming path
takes the timeout branch at the first poll whose elapsed time exceeds
`Config.STREAMING_TIMEOUT` (never waiting past it, and within `timeout + 1`
polls); the active session is stopped and the orchestrator either invokes
the bucket fallback (fallback enabled) or returns `success=False` with
error `"Streaming transcription timeout"`. -/
theorem C2_streaming_timeout_bound (fallback : Bool) (timeout : Nat)
    (env : StreamEnv) (bucketResult : TResult)
    (hr : env.raises = none) (hc : env.hasCreds = true)
    (hp : truthyBytes env.pcmResult = true) (hs : env.sessionOk = true)
    (hnc : ∀ j, env.completed j = false) (hclk : ∀ j, j ≤ env.clock j) :
    ∃ k, waitLoop timeout env.completed env.clock (timeout + 2) 0 = .timedOut k ∧
      timeout < env.clock k ∧ (∀ j < k, env.clock j ≤ timeout) ∧ k ≤ timeout + 1 ∧
      _transcribe_audio_streaming fallback timeout env bucketResult =
        if fallback then ⟨bucketResult, true, true⟩
        else ⟨failResult "Streaming transcription timeout", false, true⟩ := by
  obtain ⟨k, hk, h1, h2, h3⟩ :=
    @waitLoop_reaches_timeout timeout env.completed env.clock hnc hclk
      (timeout + 2) 0 (by omega) (by intro j hj; omega)
  refine ⟨k, hk, h1, h2, h3, ?_⟩
  simp [_transcribe_audio_streaming, hr, hc, hp, hs, hk]

/-- Witness for C2: with the default 30 s timeout and a clock advancing one
interval per poll, the loop times out and the non-fallback orchestrator
reports the timeout error. -/
theorem C2_streaming_timeout_bound_witness :
    ∃ k, waitLoop streamingTimeoutDefault timeoutEnv.completed timeoutEnv.clock
        (streamingTimeoutDefault + 2) 0 = .timedOut k ∧
      streamingTimeoutDefault < timeoutEnv.clock k ∧
      (∀ j < k, timeoutEnv.clock j ≤ streamingTimeoutDefault) ∧
      k ≤ streamingTimeoutDefault + 1 ∧
      _transcribe_audio_streaming false streamingTimeoutDefault timeoutEnv
          (_transcribe_audio_bucket sampleBucketEnv) =
        ⟨failResult "Streaming transcription timeout", false, true⟩ :=
  C2_streaming_timeout_bound false streamingTimeoutDefault timeoutEnv
    (_transcribe_audio_bucket sampleBucketEnv) rfl rfl (by decide) rfl
    (fun _ => rfl) (fun j => Nat.le_refl j)

/-- C3 counterexample: with credentials configured, a payload past the size
guard and an S3 upload failure `"boom"` in bucket mode,
`transcribe_audio_bytes` returns `success=True` with the human-readable
error text as the transcription and no error field — refuting the claim
that such transient service errors yield a result with `success=false`. -/
theorem C3_error_success_counterexample :
    (transcribe_audio_bytes "bucket" true 30 audio120 sampleStreamEnv
        uploadFailEnv).result.success = true ∧
    (transcribe_audio_bytes "bucket" true 30 audio120 sampleStreamEnv
        uploadFailEnv).result.transcription = some "Transcription failed: boom" ∧
    (transcribe_audio_bytes "bucket" true 30 audio120 sampleStreamEnv
        uploadFailEnv).result.error = none := by
  set_option maxRecDepth 4096 in decide

/-- C3 amended: transient service errors inside the inner job-management
block of the bucket path (S3 upload failure, job-submission failure, a
FAILED job) are converted into a human-readable message returned as the
*transcription text* of a result with `success=True` and no error field;
only exceptions outside that block (temp-file handling) surface as
`success=False` with the error string.  So an error can be reported inside
a result whose success field is true. -/
theorem C3_bucket_error_reporting (mode : String) (fallback : Bool)
    (timeout : Nat) (audio : Bytes) (env : StreamEnv) (benv : BucketEnv)
    (hlen : 100 ≤ audio.length) (hmode : (mode == "streaming") = false) :
    (benv.tempFileError = none → benv.hasCreds = true →
      ∀ e, benv.uploadError = some e →
      transcribe_audio_bytes mode fallback timeout audio env benv =
        ⟨{ success := true, transcription := some (bucket_error_message e)
           error := none, note := some "Bucket-based transcription completed." },
          false, true, false⟩) ∧
    (benv.tempFileError = none → benv.hasCreds = true →
      benv.uploadError = none → ∀ e, benv.submitError = some e →
      transcribe_audio_bytes mode fallback timeout audio env benv =
        ⟨{ success := true, transcription := some (bucket_error_message e)
           error := none, note := some "Bucket-based transcription completed." },
          false, true, false⟩) ∧
    (benv.tempFileError = none → benv.hasCreds = true →
      benv.uploadError = none → benv.submitError = none →
      ∀ r, benv.jobOutcome = .jobFailed r →
      transcribe_audio_bytes mode fallback timeout audio env benv =
        ⟨{ success := true
           transcription := some (bucket_error_message
             ("Transcription job failed: " ++ r.getD "Unknown error"))
           error := none, note := some "Bucket-based transcription completed." },
          false, true, false⟩) ∧
    (∀ e, benv.tempFileError = some e →
      transcribe_audio_bytes mode fallback timeout audio env benv =
        ⟨failResult e, false, true, false⟩) := by
  have hout : ∀ res : TResult,
      _transcribe_audio_bucket benv = res →
      transcribe_audio_bytes mode fallback timeout audio env benv =
        ⟨res, false, true, false⟩ := by
    intro res hres
    simp [transcribe_audio_bytes, Nat.not_lt.mpr hlen, hmode, hres]
  refine ⟨?_, ?_, ?_, ?_⟩
  · intro h1 h2 e he
    exact hout _ (by simp [_transcribe_audio_bucket, _transcribe_audio, h1, h2, he])
  · intro h1 h2 h3 e he
    exact hout _ (by simp [_transcribe_audio_bucket, _transcribe_audio, h1, h2, h3, he])
  · intro h1 h2 h3 h4 r hr
    exact hout _ (by simp [_transcribe_audio_bucket, _transcribe_audio, h1, h2, h3, h4, hr])
  · intro e he
    exact hout _ (by simp [_transcribe_audio_bucket, _transcribe_audio, he, failResult])

/-- Witness for the amended C3: the upload-failure and temp-file-failure
environments at a concrete 120-byte payload. -/
theorem C3_bucket_error_reporting_witness :
    transcribe_audio_bytes "bucket" true 30 audio120 sampleStreamEnv uploadFailEnv =
      ⟨{ success := true, transcription := some (bucket_error_message "boom")
         error := none, note := some "Bucket-based transcription completed." },
        false, true, false⟩ ∧
    transcribe_audio_bytes "bucket" true 30 audio120 sampleStreamEnv tempFailEnv =
      ⟨failResult "disk full", false, true, false⟩ :=
  ⟨(C3_bucket_error_reporting "bucket" true 30 audio120 sampleStreamEnv uploadFailEnv
      (by decide) (by decide)).1 rfl rfl "boom" rfl,
   (C3_bucket_error_reporting "bucket" true 30 audio120 sampleStreamEnv tempFailEnv
      (by decide) (by decide)).2.2.2 "disk full" rfl⟩

/-- C8: a transcription-stage failure (unsuccessful result or falsy
transcript) short-circuits `process_voice_input` with `success=False`, the
generic could-not-understand response and an error describing the failure,
invoking neither the intent-classification stage nor speech synthesis; and
any text-stage failure likewise short-circuits, returning that partial
result without invoking synthesis. -/
theorem C8_voice_short_circuit (env : VoiceEnv) :
    (env.transcribeResult.success = false →
      process_voice_input env =
        ⟨{ response := some "I'm sorry, I couldn't understand your voice input."
           success := false
           error := some (env.transcribeResult.error.getD "Transcription failed")
           query_type := none, entity := none, capital := none
           audio_bytes := none, transcribed_text := none }, false, false⟩) ∧
    (env.transcribeResult.success = true →
      truthyStr env.transcribeResult.transcription = false →
      process_voice_input env =
        ⟨{ response := some "I'm sorry, I couldn't transcribe your voice input."
           success := false
           error := some "No transcription result"
           query_type := none, entity := none, capital := none
           audio_bytes := none, transcribed_text := none }, false, false⟩) ∧
    (env.transcribeResult.success = true →
      truthyStr env.transcribeResult.transcription = true →
      env.textResult.success = false →
      process_voice_input env = ⟨env.textResult, true, false⟩) := by
  refine ⟨?_, ?_, ?_⟩
  · intro h1
    simp [process_voice_input, h1]
  · intro h1 h2
    simp [process_voice_input, h1, h2]
  · intro h1 h2 h3
    simp [process_voice_input, h1, h2, h3]

/-- Witness for C8 at a concrete failed transcription (timeout error). -/
theorem C8_voice_short_circuit_witness :
    process_voice_input transcribeFailVoiceEnv =
      ⟨{ response := some "I'm sorry, I couldn't understand your voice input."
         success := false
         error := some "Streaming transcription timeout"
         query_type := none, entity := none, capital := none
         audio_bytes := none, transcribed_text := none }, false, false⟩ :=
  (C8_voice_short_circuit transcribeFailVoiceEnv).1 rfl

/-- C10: when transcription and the text flow succeed but speech synthesis
fails, `process_voice_input` still returns `success=True`, carrying the
text flow's response, `audio_bytes=None` and error
`"Speech synthesis failed"` — a synthesis failure alone never fails the
voice result. -/
theorem C10_synthesis_failure_partial (env : VoiceEnv)
    (h1 : env.transcribeResult.success = true)
    (h2 : truthyStr env.transcribeResult.transcription = true)
    (h3 : env.textResult.success = true)
    (h4 : env.pollySuccess = false) :
    process_voice_input env =
      ⟨{ response := some (env.textResult.response.getD
           "I'm sorry, I couldn't process your request.")
         success := true
         audio_bytes := none
         error := some "Speech synthesis failed"
         query_type := none, entity := none, capital := none
         transcribed_text := none }, true, true⟩ := by
  simp [process_voice_input, h1, h2, h3, h4]

/-- Witness for C10 at a concrete run in which only synthesis fails. -/
theorem C10_synthesis_failure_partial_witness :
    process_voice_input pollyFailVoiceEnv =
      ⟨{ response := some "The capital of France is Paris."
         success := true
         audio_bytes := none
         error := some "Speech synthesis failed"
         query_type := none, entity := none, capital := none
         transcribed_text := none }, true, true⟩ :=
  C10_synthesis_failure_partial pollyFailVoiceEnv rfl (by decide) rfl rfl

end RTVoiceChat
